import Mathlib

/-!
Verification of the Style-Transfer Session Controller of the AIrtScanner
repository against its natural-language specification.

The TypeScript sources are shallowly embedded as pure Lean functions.
Remote calls to the generative model provider are modelled by passing the
outcome of each call as an explicit `Option`-valued argument (`none` means
the awaited call threw / produced no usable payload, `some x` means it
returned `x`); all state updates of the React components become explicit
state-passing functions over record types mirroring the component state.
JavaScript string primitives (`trim`, `toLowerCase`, `join`, `split`,
`Number.prototype.toString`) are embedded as structurally recursive Lean
functions so that every definition evaluates inside the kernel.
-/

namespace AIrtScanner

/-! ### JavaScript string primitives -/

/-- JavaScript `String.prototype.trim`: strip whitespace from both ends. -/
def jsTrim (s : String) : String :=
  ⟨((s.data.dropWhile Char.isWhitespace).reverse.dropWhile
      Char.isWhitespace).reverse⟩

/-- JavaScript `String.prototype.toLowerCase` (ASCII case folding, which is
all the app's data needs). -/
def jsToLowerCase (s : String) : String :=
  ⟨s.data.map Char.toLower⟩

/-- JavaScript `Array.prototype.join` with a separator string. -/
def jsJoin (sep : String) : List String → String
  | [] => ""
  | [x] => x
  | x :: y :: rest => x ++ sep ++ jsJoin sep (y :: rest)

/-- Helper for `jsSplit`: split a character list at every occurrence of
`sep`, accumulating the current field in reverse. -/
def jsSplitAux (sep : Char) : List Char → List Char → List (List Char)
  | [], acc => [acc.reverse]
  | c :: rest, acc =>
      if c = sep then acc.reverse :: jsSplitAux sep rest []
      else jsSplitAux sep rest (c :: acc)

/-- JavaScript `String.prototype.split` with a one-character separator. -/
def jsSplit (sep : Char) (s : String) : List String :=
  (jsSplitAux sep s.data []).map fun l => ⟨l⟩

example : jsSplit ',' "data:image/png;base64,QUJD" =
    ["data:image/png;base64", "QUJD"] := by decide
example : jsTrim "  Add rain  " = "Add rain" := by decide
example : jsJoin ", " ["a", "b", "c"] = "a, b, c" := by decide

/-! ### Data model (from `types.ts`, the variant in `src/unnamed/part_002`) -/

/-- Structured style metadata produced by the analysis pipeline
(`AnalysisResult` in `types.ts`).  The `creativePrompt` field is absent in
the older schema variant (`src/unnamed/part_001`); there it is treated as
the empty string. -/
structure AnalysisResult where
  style : String
  artist : String
  techniques : List String
  colorPalette : List String
  composition : List String
  mood : String
  creativePrompt : String
deriving Repr, DecidableEq

/-- Result of the style-tag extraction call (`StyleExtractionResult` in
`types.ts`). -/
structure StyleExtractionResult where
  lighting : List String
  medium : List String
  textures : List String
  techniques : List String
  vibe : List String
deriving Repr, DecidableEq

/-- One generated artifact of the history list (`GeneratedItem` in
`types.ts`).  `styleContext` is an optional string in TypeScript; the app
always stores a string there (the empty string when no analysis was
present), and JavaScript truthiness of a string is exactly non-emptiness,
so it is embedded as a plain `String`. -/
structure GeneratedItem where
  id : String
  imageUrl : String
  title : String
  prompt : String
  modifiers : List String
  styleContext : String
  timestamp : Nat
deriving Repr, DecidableEq

/-- Chat roles of the edit session. -/
inductive Role where
  | user
  | model
deriving Repr, DecidableEq

/-- One edit-session chat entry (`ChatMessage` in `types.ts`). -/
structure ChatMessage where
  id : String
  role : Role
  text : Option String
  imageUrl : Option String
  executedPrompt : Option String
  timestamp : Nat
deriving Repr, DecidableEq

/-! ### Decimal rendering of timestamps

The app derives ids from `Date.now().toString()`.  JavaScript's
`Number.prototype.toString` renders a non-negative integer in decimal;
`natToString` is that renderer, written over `Nat.digits` so that its
injectivity can be derived from `Nat.digits_inj_iff`. -/

/-- Decimal string of a natural number (model of JavaScript
`Number.prototype.toString` on integer timestamps). -/
def natToString (n : Nat) : String :=
  if n = 0 then "0"
  else ⟨(Nat.digits 10 n).reverse.map Nat.digitChar⟩

/-! ### Service layer (from `services/geminiService.ts`)

Each service function takes the raw payload of the remote response as an
explicit argument; the parsing / fallback behaviour of the TypeScript code
is embedded faithfully. -/

/-- Outbound prompt built by `editImageWithGemini`
(`services/geminiService.ts`, lines 115-119).  Note the double space when
the modifier list is empty, exactly as in the template literal. -/
def mkFullPrompt (prompt : String) (modifiers : List String) : String :=
  let modifierString :=
    if modifiers.length > 0 then
      "Apply the following artistic styles and techniques: " ++
        jsJoin ", " modifiers ++ "."
    else ""
  prompt ++ ". " ++ modifierString ++
    " Maintain the core composition of the source image but transform it based on the description."

/-- Successful result of `editImageWithGemini`: a data-URI image handle and
the prompt actually sent. -/
structure GenOut where
  imageUrl : String
  executedPrompt : String
deriving Repr, DecidableEq

/-- Model of `editImageWithGemini` (`services/geminiService.ts`, lines 107-152).
`respData` is the `inlineData.data` of the first candidate part of the
remote response; `none` covers both an absent image payload (the code then
throws `"No image generated."`) and a failed await. -/
def editImageWithGemini (base64ImageData mimeType prompt : String)
    (modifiers : List String) (respData : Option String) :
    Except String GenOut :=
  let _ := base64ImageData
  let _ := mimeType
  let fullPrompt := mkFullPrompt prompt modifiers
  match respData with
  | some base64ImageBytes =>
      .ok { imageUrl := "data:image/png;base64," ++ base64ImageBytes,
            executedPrompt := fullPrompt }
  | none => .error "No image generated."

/-- Model of `analyzeImageStyle` (`services/geminiService.ts`, lines 73-105).
`parsed` is the outcome of `JSON.parse` on the response text: on parse
failure the function throws. -/
def analyzeImageStyle (base64ImageData mimeType : String) (intensity : Nat)
    (parsed : Option AnalysisResult) : Except String AnalysisResult :=
  let _ := base64ImageData
  let _ := mimeType
  let _ := intensity
  match parsed with
  | some parsedResult => .ok parsedResult
  | none => .error "Received an invalid format from the API."

/-- Model of `generateCreativeTitle` (`services/geminiService.ts`, lines 154-164).
`respText` is `response.text` (possibly `undefined`); the code returns
`response.text?.trim() || "Untitled Masterpiece"`. -/
def generateCreativeTitle (respText : Option String) : String :=
  let t := jsTrim (respText.getD "")
  if t = "" then "Untitled Masterpiece" else t

/-- Model of `extractStylesFromText` (`services/geminiService.ts`, lines 180-214).
`parsed` is the outcome of `JSON.parse` on the response text: on parse
failure the function returns an all-empty `StyleExtractionResult` rather
than throwing. -/
def extractStylesFromText (promptText : String)
    (parsed : Option StyleExtractionResult) : StyleExtractionResult :=
  let _ := promptText
  match parsed with
  | some r => r
  | none =>
      { lighting := [], medium := [], textures := [], techniques := [],
        vibe := [] }

example :
    extractStylesFromText "p" none =
      { lighting := [], medium := [], textures := [], techniques := [],
        vibe := [] } := by rfl

example : generateCreativeTitle (some "  ") = "Untitled Masterpiece" := by
  decide

/-! ### Data-URL decomposition (used by `App.tsx` and `ImageEditor.tsx`)

`imageUrl.split(',')[1]` and
`imageUrl.split(',')[0].split(':')[1].split(';')[0]`.  An out-of-range
index yields `undefined` in JavaScript; the embedding yields `""`, which
only matters for malformed handles that the app never constructs. -/

/-- Base64 payload of a data URL: `url.split(',')[1]`. -/
def dataUrlBase64 (url : String) : String :=
  (jsSplit ',' url).getD 1 ""

/-- MIME type of a data URL:
`url.split(',')[0].split(':')[1].split(';')[0]`. -/
def dataUrlMime (url : String) : String :=
  (jsSplit ';' ((jsSplit ':' ((jsSplit ',' url).getD 0 "")).getD 1 "")).getD 0 ""

example : dataUrlBase64 "data:image/png;base64,QUJD" = "QUJD" := by decide
example : dataUrlMime "data:image/png;base64,QUJD" = "image/png" := by decide

/-! ### App component state (from `src/unnamed/part_000`, second variant)

The `useState` hooks of the `App` component, gathered into one record.
`editingItem` and `copiedLogId` are carried along to make the frame
properties of `handleReset` precise. -/

structure AppState where
  imageFile : Option String
  imageUrl : Option String
  analysisResult : Option AnalysisResult
  userIdea : String
  selectedModifiers : List String
  customModifier : String
  generatedHistory : List GeneratedItem
  editingItem : Option GeneratedItem
  isLoading : Bool
  isGenerating : Bool
  error : Option String
  copiedLogId : Option String
deriving Repr, DecidableEq

/-- The style-context synthesis of `handleGenerateClick`
(`src/unnamed/part_000`, line 478): the template literal interpolating the
prior analysis, with `mood` lowercased and the two list fields joined by
`", "`. -/
def mkStyleContext (a : AnalysisResult) : String :=
  "A " ++ a.style ++ " style image, in the style of " ++ a.artist ++
    ". Featuring " ++ jsToLowerCase a.mood ++
    " tones, with a color palette of " ++ jsJoin ", " a.colorPalette ++
    ". Key techniques include " ++ jsJoin ", " a.techniques ++ "."

/-- The history entry assembled by a successful render
(`src/unnamed/part_000`, lines 482-490).  `titleResp` is the raw text of
the title response, `g` the successful `editImageWithGemini` result and
`now` the value of `Date.now()`. -/
def renderNewItem (s : AppState) (g : GenOut) (titleResp : Option String)
    (now : Nat) : GeneratedItem :=
  { id := natToString now,
    imageUrl := g.imageUrl,
    title := generateCreativeTitle titleResp,
    prompt := s.userIdea,
    modifiers := s.selectedModifiers,
    styleContext :=
      match s.analysisResult with
      | some a => mkStyleContext a
      | none => "",
    timestamp := now }

/-- Model of `handleGenerateClick` (`src/unnamed/part_000`, lines 447-500).

`respData` is the image payload of the `editImageWithGemini` response
(`none` when that await throws), `titleOutcome` the outcome of the
`generateCreativeTitle` await (`none` when it throws, `some t` when it
resolves with response text `t`), and `now` the clock value used for the
new item's id and timestamp.  The validation guards, the catch-all error
message and the prepend to history follow the source line by line. -/
def handleGenerateClick (s : AppState) (respData : Option String)
    (titleOutcome : Option (Option String)) (now : Nat) : AppState :=
  match s.imageUrl with
  | none => { s with error := some "Please upload a reference image." }
  | some url =>
    if s.userIdea = "" ∧ s.selectedModifiers = [] then
      { s with error := some "Please enter an idea or select styles." }
    else
      let s1 := { s with isGenerating := true, error := none }
      match editImageWithGemini (dataUrlBase64 url) (dataUrlMime url)
          s.userIdea s.selectedModifiers respData with
      | .error _ =>
          { s1 with
            error := some "Failed to generate image. Please try again.",
            isGenerating := false }
      | .ok g =>
        match titleOutcome with
        | none =>
            { s1 with
              error := some "Failed to generate image. Please try again.",
              isGenerating := false }
        | some titleResp =>
            { s1 with
              generatedHistory :=
                renderNewItem s g titleResp now :: s1.generatedHistory,
              isGenerating := false }

/-- Model of `handleReset` (`src/unnamed/part_000`, lines 515-521): clear the input
image, the analysis, the error and the loading flag; everything else is
untouched.  `handleClearAll` (lines 523-525) just calls it. -/
def handleReset (s : AppState) : AppState :=
  { s with
    imageFile := none,
    imageUrl := none,
    analysisResult := none,
    error := none,
    isLoading := false }

/-- Model of `handleClearAll` (`src/unnamed/part_000`, lines 523-525). -/
def handleClearAll (s : AppState) : AppState :=
  handleReset s

/-! ### Export assembly (from `src/unnamed/part_000`) -/

/-- Model of `generateLogText` (`src/unnamed/part_000`, lines 527-538).  `fmtTime`
stands for `new Date(t).toLocaleString()`, a locale-dependent formatter the
embedding keeps abstract.  `modifiers.join(', ') || 'None'` falls back on
the empty string; the trailing block appears only when `styleContext` is a
non-empty (truthy) string. -/
def generateLogText (fmtTime : Nat → String) (item : GeneratedItem) :
    String :=
  let styles := jsJoin ", " item.modifiers
  item.title ++ "\n" ++ fmtTime item.timestamp ++ "\n\nPrompt:\n" ++
    item.prompt ++ "\n\nStyles:\n" ++
    (if styles = "" then "None" else styles) ++ "\n\n" ++
    (if item.styleContext ≠ "" then
      "Original Style Context:\n" ++ item.styleContext
     else "")

/-- Collapse every whitespace run into one underscore
(`title.replace(/\s+/g, '_')`), carrying a flag recording whether the
previous character was whitespace. -/
def collapseWsAux : Bool → List Char → List Char
  | _, [] => []
  | prevWs, c :: rest =>
      if c.isWhitespace then
        if prevWs then collapseWsAux true rest
        else '_' :: collapseWsAux true rest
      else c :: collapseWsAux false rest

/-- Sanitization `title.replace(/\s+/g, '_')` as used for the bundle file names. -/
def sanitizeTitle (s : String) : String :=
  ⟨collapseWsAux false s.data⟩

example : sanitizeTitle "Neon  Dream City" = "Neon_Dream_City" := by decide

/-- One file of the zip bundle: a text log or an image. -/
inductive ZipEntry where
  | log (path : String) (content : String)
  | image (path : String) (bytes : String)
deriving Repr, DecidableEq

/-- The per-item loop body of `handleDownloadAllZip`
(`src/unnamed/part_000`, lines 567-580): every item contributes its log
file; the image file is added only when `fetch`-and-decode of the item's
image handle succeeds (`decode it.imageUrl = some bytes`) — a decode
failure is caught, logged and skipped. -/
def zipFolderEntries (fmtTime : Nat → String)
    (decode : String → Option String) :
    List GeneratedItem → List ZipEntry
  | [] => []
  | item :: rest =>
      ZipEntry.log
          ("logs/" ++ sanitizeTitle item.title ++ "_" ++ item.id ++ ".txt")
          (generateLogText fmtTime item) ::
        ((match decode item.imageUrl with
          | some bytes =>
              [ZipEntry.image
                ("images/" ++ sanitizeTitle item.title ++ "_" ++ item.id ++
                  ".png") bytes]
          | none => []) ++ zipFolderEntries fmtTime decode rest)

/-- Model of `handleDownloadAllZip` (`src/unnamed/part_000`, lines 560-590): nothing
happens on an empty history; otherwise the bundle holds the entries of the
per-item loop. -/
def handleDownloadAllZip (fmtTime : Nat → String)
    (decode : String → Option String) (s : AppState) :
    Option (List ZipEntry) :=
  if s.generatedHistory.isEmpty then none
  else some (zipFolderEntries fmtTime decode s.generatedHistory)

/-- Number of log files in a bundle. -/
def countLogs (entries : List ZipEntry) : Nat :=
  (entries.filter fun e =>
    match e with
    | .log _ _ => true
    | .image _ _ => false).length

/-- Number of image files in a bundle. -/
def countImages (entries : List ZipEntry) : Nat :=
  (entries.filter fun e =>
    match e with
    | .log _ _ => false
    | .image _ _ => true).length

/-! ### Edit session state machine (from `components/ImageEditor.tsx`)

The `useState` hooks of the `ImageEditor` component.  `isProcessing` is
the `Awaiting` flag of the specification's state machine.  The `handleSend`
callback is split at its single suspension point into `handleSendStart`
(everything before the `editImageWithGemini` await, returning the request
that is now outstanding, or `none` when the guard ignored the submission)
and `handleSendFinish` (the success / catch / finally blocks after the
await). -/

structure EditorState where
  currentImage : String
  inputValue : String
  isProcessing : Bool
  messages : List ChatMessage
deriving Repr, DecidableEq

/-- The arguments of the outstanding `editImageWithGemini` call issued by
an accepted submission. -/
structure EditReq where
  base64Data : String
  mimeType : String
  prompt : String
  modifiers : List String
deriving Repr, DecidableEq

/-- First half of `handleSend` (`components/ImageEditor.tsx`, lines 36-57):
the guard `if (!inputValue.trim() || isProcessing) return;`, then clearing
the input, raising `isProcessing`, appending the user message and issuing
the request built from the *current* image with an empty modifier list. -/
def handleSendStart (s : EditorState) (now : Nat) :
    EditorState × Option EditReq :=
  if jsTrim s.inputValue = "" ∨ s.isProcessing then (s, none)
  else
    let userPrompt := jsTrim s.inputValue
    let userMsg : ChatMessage :=
      { id := natToString now, role := .user, text := some userPrompt,
        imageUrl := none, executedPrompt := none, timestamp := now }
    ({ s with
        inputValue := "",
        isProcessing := true,
        messages := s.messages ++ [userMsg] },
     some { base64Data := dataUrlBase64 s.currentImage,
            mimeType := dataUrlMime s.currentImage,
            prompt := userPrompt,
            modifiers := [] })

/-- Second half of `handleSend` (`components/ImageEditor.tsx`, lines
57-81): on success set `currentImage` to the new handle and append the
model message carrying it together with the executed prompt; on failure
append the fixed failure notice and leave `currentImage` alone; either way
clear `isProcessing` (the `finally` block). -/
def handleSendFinish (s : EditorState) (req : EditReq)
    (respData : Option String) (now : Nat) : EditorState :=
  match editImageWithGemini req.base64Data req.mimeType req.prompt
      req.modifiers respData with
  | .ok result =>
      { s with
        currentImage := result.imageUrl,
        messages := s.messages ++
          [{ id := natToString (now + 1), role := .model, text := none,
             imageUrl := some result.imageUrl,
             executedPrompt := some result.executedPrompt,
             timestamp := now }],
        isProcessing := false }
  | .error _ =>
      { s with
        messages := s.messages ++
          [{ id := natToString (now + 1), role := .model,
             text := some "Sorry, I couldn't generate that edit. Please try again.",
             imageUrl := none, executedPrompt := none, timestamp := now }],
        isProcessing := false }

/-- Model of `setCurrentImage(msg.imageUrl!)` wired to the click on a model
message's image (`components/ImageEditor.tsx`, line 115): rewind the
active image to the handle carried by that message. -/
def selectVersion (s : EditorState) (handle : String) : EditorState :=
  { s with currentImage := handle }

/-! ### Analysis-result serialization

Two coexisting variants of the `formatOutput` memo for the `'txt'` format.
The newer one (second document of `components/Spinner.tsx`, lines 28-41)
leads with the generated `creativePrompt`; the older one
(`components/ResultDisplay.tsx`, lines 20-32, matching the schema of
`src/unnamed/part_001` in which `creativePrompt` does not exist)
synthesizes a sentence purely from the structured fields. -/

/-- The `'txt'` case of `formatOutput` in the newer result display
(`components/Spinner.tsx`, lines 28-41). -/
def formatOutputTxtV2 (result : AnalysisResult) : String :=
  result.creativePrompt ++ "\n\n-- Metadata --\nStyle: " ++ result.style ++
    "\nArtist: " ++ result.artist ++ "\nTechniques: " ++
    jsJoin ", " result.techniques ++ "\nMood: " ++ result.mood

/-- The `'txt'` case of `formatOutput` in the older result display
(`components/ResultDisplay.tsx`, lines 20-32). -/
def formatOutputTxtV1 (result : AnalysisResult) : String :=
  "A " ++ result.style ++ " style image, in the style of " ++
    result.artist ++ ". Featuring " ++ jsToLowerCase result.mood ++
    " tones, with a color palette of " ++ jsJoin ", " result.colorPalette ++
    ". Key techniques include " ++ jsJoin ", " result.techniques ++
    ", and a composition characterized by " ++
    jsJoin ", " result.composition ++ "."

/-! ### Sample data for concrete instantiations -/

/-- A concrete analysis result. -/
def sampleAnalysis : AnalysisResult :=
  { style := "Impressionism", artist := "Claude Monet",
    techniques := ["Impasto", "Broken color"],
    colorPalette := ["Vibrant Yellows", "Deep Blues"],
    composition := ["Asymmetry"], mood := "Calm and Serene",
    creativePrompt := "A luminous garden at dawn." }

/-- A concrete app state ready to render: reference image uploaded,
analysis present, an idea and two modifiers selected. -/
def sampleAppState : AppState :=
  { imageFile := some "upload.png",
    imageUrl := some "data:image/png;base64,QUJD",
    analysisResult := some sampleAnalysis,
    userIdea := "A futuristic city",
    selectedModifiers := ["Noir", "Cyberpunk"],
    customModifier := "",
    generatedHistory := [],
    editingItem := none,
    isLoading := false,
    isGenerating := false,
    error := none,
    copiedLogId := none }

/-- A concrete app state whose history already holds two artifacts with
time-based ids (timestamps 3 and 1, newest first). -/
def sampleAppStateWithHistory : AppState :=
  { sampleAppState with
    generatedHistory :=
      [{ id := natToString 3, imageUrl := "data:image/png;base64,Qw==",
         title := "Neon City", prompt := "city", modifiers := ["Noir"],
         styleContext := "", timestamp := 3 },
       { id := natToString 1, imageUrl := "data:image/png;base64,RA==",
         title := "Old Harbor", prompt := "harbor", modifiers := [],
         styleContext := "", timestamp := 1 }] }

/-- A concrete history for the bundle claims: three artifacts, the middle
one carrying a handle the sample decoder cannot decode. -/
def sampleBundleItems : List GeneratedItem :=
  [{ id := "1", imageUrl := "data:image/png;base64,QUJD",
     title := "Neon City", prompt := "city", modifiers := ["Noir"],
     styleContext := "", timestamp := 1 },
   { id := "2", imageUrl := "corrupt-handle", title := "Old Harbor",
     prompt := "harbor", modifiers := [], styleContext := "",
     timestamp := 2 },
   { id := "3", imageUrl := "data:image/png;base64,RUZH",
     title := "Misty Wood", prompt := "wood", modifiers := ["Gouache Oil"],
     styleContext := "", timestamp := 3 }]

/-- A concrete image decoder that fails exactly on `"corrupt-handle"`. -/
def sampleDecode (url : String) : Option String :=
  if url = "corrupt-handle" then none else some url

/-- A concrete edit-session state: idle, a pending instruction typed, with
the initial greeting in the log. -/
def sampleEditorState : EditorState :=
  { currentImage := "data:image/png;base64,QUJD",
    inputValue := "Add rain",
    isProcessing := false,
    messages :=
      [{ id := "init", role := .model,
         text := some "Editing \"Neon City\". What would you like to change?",
         imageUrl := none, executedPrompt := none, timestamp := 0 }] }

/-- A concrete analysis result whose creative description contains no
quote characters, for exercising the text serializer. -/
def cexAnalysis : AnalysisResult :=
  { style := "Surrealism", artist := "Salvador Dali",
    techniques := ["melting forms"], colorPalette := ["amber gold"],
    composition := ["centered"], mood := "Dreamy",
    creativePrompt := "A dream of molten clocks." }

/-! ### Helper lemmas -/

/-- The map `Nat.digitChar` is injective below the base 10. -/
theorem digitChar_inj_lt {a b : Nat} (ha : a < 10) (hb : b < 10)
    (h : Nat.digitChar a = Nat.digitChar b) : a = b := by
  interval_cases a <;> interval_cases b <;> revert h <;> decide

/-- Mapping `Nat.digitChar` over digit lists (entries below 10) is
injective. -/
theorem map_digitChar_inj :
    ∀ {l1 l2 : List Nat}, (∀ x ∈ l1, x < 10) → (∀ x ∈ l2, x < 10) →
      l1.map Nat.digitChar = l2.map Nat.digitChar → l1 = l2 := by
  intro l1
  induction l1 with
  | nil =>
      intro l2 _ _ h
      cases l2 with
      | nil => rfl
      | cons b t => simp at h
  | cons a t ih =>
      intro l2 h1 h2 h
      cases l2 with
      | nil => simp at h
      | cons b t2 =>
          simp only [List.map_cons, List.cons.injEq] at h
          have ha : a < 10 := h1 a (List.mem_cons_self a t)
          have hb : b < 10 := h2 b (List.mem_cons_self b t2)
          have hab : a = b := digitChar_inj_lt ha hb h.1
          have ht : t = t2 :=
            ih (fun x hx => h1 x (List.mem_cons_of_mem a hx))
              (fun x hx => h2 x (List.mem_cons_of_mem b hx)) h.2
          rw [hab, ht]

/-- The decimal renderer behind the time-based artifact ids is
injective. -/
theorem natToString_inj {m n : Nat} (h : natToString m = natToString n) :
    m = n := by
  unfold natToString at h
  have digitsLt : ∀ k : Nat, ∀ d ∈ Nat.digits 10 k, d < 10 := by
    intro k d hd
    exact Nat.digits_lt_base (by norm_num) hd
  have zeroCase : ∀ k : Nat, k ≠ 0 →
      ("0" : String) ≠ ⟨(Nat.digits 10 k).reverse.map Nat.digitChar⟩ := by
    intro k hk hcontra
    have hdata : ['0'] = (Nat.digits 10 k).reverse.map Nat.digitChar :=
      congrArg String.data hcontra
    have hlen : (Nat.digits 10 k).length = 1 := by
      have := congrArg List.length hdata
      simpa using this.symm
    obtain ⟨d, hd⟩ := List.length_eq_one.mp hlen
    have hdne : d ≠ 0 := by
      have := Nat.getLast_digit_ne_zero 10 hk
      simpa [hd] using this
    have hdlt : d < 10 := digitsLt k d (by simp [hd])
    have : '0' = Nat.digitChar d := by simpa [hd] using hdata
    have : (0 : Nat) = d := digitChar_inj_lt (by norm_num) hdlt (by
      simpa [Nat.digitChar] using this)
    exact hdne this.symm
  by_cases hm : m = 0 <;> by_cases hn : n = 0
  · rw [hm, hn]
  · rw [if_pos hm, if_neg hn] at h
    exact absurd h (zeroCase n hn)
  · rw [if_neg hm, if_pos hn] at h
    exact absurd h.symm (zeroCase m hm)
  · rw [if_neg hm, if_neg hn] at h
    have hdata := congrArg String.data h
    simp only at hdata
    have hrev : (Nat.digits 10 m).reverse = (Nat.digits 10 n).reverse :=
      map_digitChar_inj (by simpa using digitsLt m)
        (by simpa using digitsLt n) hdata
    have : Nat.digits 10 m = Nat.digits 10 n :=
      List.reverse_injective hrev
    exact Nat.digits_inj_iff.mp this

/-- Every artifact contributes exactly one log file to the bundle. -/
theorem countLogs_zipFolderEntries (fmtTime : Nat → String)
    (decode : String → Option String) :
    ∀ items : List GeneratedItem,
      countLogs (zipFolderEntries fmtTime decode items) = items.length := by
  intro items
  induction items with
  | nil => rfl
  | cons item rest ih =>
      cases hdec : decode item.imageUrl <;>
        simp [zipFolderEntries, countLogs, hdec, List.filter_append,
          countLogs] at ih ⊢ <;> omega

/-- An artifact contributes an image file exactly when its handle
decodes. -/
theorem countImages_zipFolderEntries (fmtTime : Nat → String)
    (decode : String → Option String) :
    ∀ items : List GeneratedItem,
      countImages (zipFolderEntries fmtTime decode items) =
        (items.filter fun it => (decode it.imageUrl).isSome).length := by
  intro items
  induction items with
  | nil => rfl
  | cons item rest ih =>
      cases hdec : decode item.imageUrl <;>
        simp [zipFolderEntries, countImages, hdec, List.filter_append,
          List.filter_cons] at ih ⊢ <;> omega

/-! ### Claim theorems -/

/-- C10: the reset / "Clear All" operation clears only the input image
(file and URL), the analysis result, the error message and the loading
flag; the generated history, the user idea, the selected modifiers (and
the custom-modifier draft, the open editor, the generating flag and the
copied-log marker) are left unchanged, so previously generated artifacts
survive clearing the reference image. -/
theorem reset_clears_only_input_state (s : AppState) :
    (handleReset s).imageFile = none ∧
    (handleReset s).imageUrl = none ∧
    (handleReset s).analysisResult = none ∧
    (handleReset s).error = none ∧
    (handleReset s).isLoading = false ∧
    (handleReset s).generatedHistory = s.generatedHistory ∧
    (handleReset s).userIdea = s.userIdea ∧
    (handleReset s).selectedModifiers = s.selectedModifiers ∧
    (handleReset s).customModifier = s.customModifier ∧
    (handleReset s).editingItem = s.editingItem ∧
    (handleReset s).isGenerating = s.isGenerating ∧
    (handleReset s).copiedLogId = s.copiedLogId ∧
    handleClearAll s = handleReset s := by
  simp [handleReset, handleClearAll]

/-- C9: when the remote response cannot be parsed as the expected tag
schema, `extractStylesFromText` returns a `StyleExtractionResult` with all
five fields empty and raises no error (it is total into the plain result
type), unlike `analyzeImageStyle` and `editImageWithGemini`, which fail
with errors on their degenerate responses, and unlike
`generateCreativeTitle`, which falls back to a fixed default label. -/
theorem extractStyleTags_graceful_degradation (promptText : String)
    (b m p : String) (mods : List String) (i : Nat) :
    extractStylesFromText promptText none =
      { lighting := [], medium := [], textures := [], techniques := [],
        vibe := [] } ∧
    analyzeImageStyle b m i none =
      .error "Received an invalid format from the API." ∧
    editImageWithGemini b m p mods none = .error "No image generated." ∧
    generateCreativeTitle none = "Untitled Masterpiece" := by
  refine ⟨rfl, rfl, rfl, ?_⟩
  decide

/-- C7 counterexample: the text serialization of an analysis carrying a
creative description leads with that description *not* wrapped in quotes:
on a concrete result the output starts with the bare description (first
character `A`, not a quote), as the fully evaluated output shows. -/
theorem formatOutputTxt_creativePrompt_not_quoted :
    cexAnalysis.creativePrompt = "A dream of molten clocks." ∧
    formatOutputTxtV2 cexAnalysis =
      "A dream of molten clocks.\n\n-- Metadata --\nStyle: Surrealism\nArtist: Salvador Dali\nTechniques: melting forms\nMood: Dreamy" ∧
    (formatOutputTxtV2 cexAnalysis).data.head? = some 'A' ∧
    'A' ≠ '"' := by
  refine ⟨rfl, by decide, by decide, by decide⟩

/-- C7 amended: for a result carrying a generated creative description the
text serialization leads with that description verbatim (unquoted),
followed by a metadata block listing style, artist, techniques and mood;
the older serializer (for the schema variant without `creativePrompt`)
synthesizes a descriptive sentence purely from the structured fields and
is independent of any creative description. -/
theorem formatOutputTxt_both_schema_variants (r rOld : AnalysisResult) :
    formatOutputTxtV2 r =
      r.creativePrompt ++ "\n\n-- Metadata --\nStyle: " ++ r.style ++
        "\nArtist: " ++ r.artist ++ "\nTechniques: " ++
        jsJoin ", " r.techniques ++ "\nMood: " ++ r.mood ∧
    formatOutputTxtV1 rOld =
      "A " ++ rOld.style ++ " style image, in the style of " ++
        rOld.artist ++ ". Featuring " ++ jsToLowerCase rOld.mood ++
        " tones, with a color palette of " ++
        jsJoin ", " rOld.colorPalette ++ ". Key techniques include " ++
        jsJoin ", " rOld.techniques ++
        ", and a composition characterized by " ++
        jsJoin ", " rOld.composition ++ "." ∧
    formatOutputTxtV1 rOld =
      formatOutputTxtV1 { rOld with creativePrompt := "" } := by
  exact ⟨rfl, rfl, rfl⟩

/-- C1: with a reference image present and a non-empty idea or modifier
set, (i) a failing `editImageWithGemini` call leaves the history list
completely unchanged, (ii) the outcome is then independent of the title
response — no title call is observable, (iii) a title-call failure after a
successful image also leaves the history unchanged (atomicity), and
(iv) when the whole pipeline succeeds, exactly the one new artifact built
by `renderNewItem` is prepended at the front of the history. -/
theorem render_atomicity (s : AppState) (url : String)
    (hImg : s.imageUrl = some url)
    (hValid : ¬(s.userIdea = "" ∧ s.selectedModifiers = [])) :
    (∀ t now,
      (handleGenerateClick s none t now).generatedHistory =
        s.generatedHistory) ∧
    (∀ t t' now,
      handleGenerateClick s none t now = handleGenerateClick s none t' now) ∧
    (∀ b now,
      (handleGenerateClick s (some b) none now).generatedHistory =
        s.generatedHistory) ∧
    (∀ b t now,
      (handleGenerateClick s (some b) (some t) now).generatedHistory =
        renderNewItem s
          { imageUrl := "data:image/png;base64," ++ b,
            executedPrompt := mkFullPrompt s.userIdea s.selectedModifiers }
          t now :: s.generatedHistory) := by
  refine ⟨?_, ?_, ?_, ?_⟩ <;>
    · intros
      simp [handleGenerateClick, hImg, hValid, editImageWithGemini]

/-- C1 witness: the atomicity theorem instantiated at a concrete valid
state — a failing image call leaves the (empty) history empty. -/
theorem render_atomicity_witness :
    (handleGenerateClick sampleAppState none (some (some "Neon Title"))
        9).generatedHistory = sampleAppState.generatedHistory :=
  (render_atomicity sampleAppState "data:image/png;base64,QUJD" rfl
      (by decide)).1 (some (some "Neon Title")) 9

/-- C5: whenever a prior analysis is present at render time, the newly
prepended artifact's `styleContext` is exactly the template
`A (style) style image, in the style of (artist). Featuring (mood
lowercased) tones, with a color palette of (colorPalette joined by comma
and space). Key techniques include (techniques joined by comma and
space).` — only the mood field is lowercased, every other field appears
verbatim, punctuation as written. -/
theorem styleContext_synthesis (s : AppState) (url : String)
    (a : AnalysisResult) (b : String) (t : Option String) (now : Nat)
    (hImg : s.imageUrl = some url)
    (hValid : ¬(s.userIdea = "" ∧ s.selectedModifiers = []))
    (hA : s.analysisResult = some a) :
    ((handleGenerateClick s (some b) (some t)
        now).generatedHistory.head?).map GeneratedItem.styleContext =
      some ("A " ++ a.style ++ " style image, in the style of " ++
        a.artist ++ ". Featuring " ++ jsToLowerCase a.mood ++
        " tones, with a color palette of " ++ jsJoin ", " a.colorPalette ++
        ". Key techniques include " ++ jsJoin ", " a.techniques ++ ".") := by
  simp [handleGenerateClick, hImg, hValid, editImageWithGemini,
    renderNewItem, hA, mkStyleContext]

/-- C5 witness: the synthesis theorem at a concrete state with a concrete
prior analysis. -/
theorem styleContext_synthesis_witness :
    ((handleGenerateClick sampleAppState (some "QkJC")
        (some (some "Neon Rain")) 7).generatedHistory.head?).map
        GeneratedItem.styleContext =
      some ("A " ++ sampleAnalysis.style ++
        " style image, in the style of " ++ sampleAnalysis.artist ++
        ". Featuring " ++ jsToLowerCase sampleAnalysis.mood ++
        " tones, with a color palette of " ++
        jsJoin ", " sampleAnalysis.colorPalette ++
        ". Key techniques include " ++
        jsJoin ", " sampleAnalysis.techniques ++ ".") :=
  styleContext_synthesis sampleAppState "data:image/png;base64,QUJD"
    sampleAnalysis "QkJC" (some "Neon Rain") 7 rfl (by decide) rfl

/-- C2: a submit is accepted only when the instruction is non-blank and no
request is outstanding.  A submit with a blank (whitespace-only)
instruction, or while a request is outstanding, is the identity — no
message appended, no request issued, no error.  Consequently two rapid
submissions (the second arriving while the first is outstanding) are
collapsed: the second is ignored, and the full exchange appends exactly
one user message plus one model response to the log, not two. -/
theorem edit_submit_guard (s : EditorState) (n1 n2 n3 : Nat)
    (respData : Option String)
    (hIdle : s.isProcessing = false)
    (hNB : jsTrim s.inputValue ≠ "") :
    (∀ s' now, jsTrim s'.inputValue = "" →
      handleSendStart s' now = (s', none)) ∧
    (∀ s' now, s'.isProcessing = true →
      handleSendStart s' now = (s', none)) ∧
    (handleSendStart (handleSendStart s n1).1 n2 =
      ((handleSendStart s n1).1, none)) ∧
    (∀ req, (handleSendStart s n1).2 = some req →
      ∃ um mm,
        (handleSendFinish (handleSendStart s n1).1 req respData
            n3).messages = s.messages ++ [um, mm] ∧
        um.role = .user ∧ mm.role = .model) := by
  refine ⟨?_, ?_, ?_, ?_⟩
  · intro s' now h
    simp [handleSendStart, h]
  · intro s' now h
    simp [handleSendStart, h]
  · simp [handleSendStart, hIdle, hNB]
  · intro req hreq
    cases respData with
    | some b =>
        refine ⟨{ id := natToString n1, role := .user,
                  text := some (jsTrim s.inputValue), imageUrl := none,
                  executedPrompt := none, timestamp := n1 },
                { id := natToString (n3 + 1), role := .model, text := none,
                  imageUrl := some ("data:image/png;base64," ++ b),
                  executedPrompt :=
                    some (mkFullPrompt req.prompt req.modifiers),
                  timestamp := n3 }, ?_, rfl, rfl⟩
        simp [handleSendStart, hIdle, hNB, handleSendFinish,
          editImageWithGemini]
    | none =>
        refine ⟨{ id := natToString n1, role := .user,
                  text := some (jsTrim s.inputValue), imageUrl := none,
                  executedPrompt := none, timestamp := n1 },
                { id := natToString (n3 + 1), role := .model,
                  text := some "Sorry, I couldn't generate that edit. Please try again.",
                  imageUrl := none, executedPrompt := none,
                  timestamp := n3 }, ?_, rfl, rfl⟩
        simp [handleSendStart, hIdle, hNB, handleSendFinish,
          editImageWithGemini]

/-- C2 witness: the guard theorem at a concrete idle state with the
instruction `Add rain` — the second of two rapid submissions is
ignored. -/
theorem edit_submit_guard_witness :
    handleSendStart (handleSendStart sampleEditorState 10).1 11 =
      ((handleSendStart sampleEditorState 10).1, none) :=
  (edit_submit_guard sampleEditorState 10 11 12 (some "RUVF") rfl
      (by decide)).2.2.1

/-- C3: an accepted submission issues exactly one request whose base image
data is taken from the session's *currently active* image (its data-URL
payload and MIME type), whose prompt is the trimmed instruction and whose
modifier set is empty; when the call succeeds, the new data-URI handle is
built from the returned bytes, a model message carrying that handle and
the executed prompt actually sent (the full prompt over the trimmed
instruction with no modifiers) is appended, and `currentImage` auto-
advances to the new handle. -/
theorem edit_success_transition (s : EditorState) (n1 n2 : Nat) (b : String)
    (hIdle : s.isProcessing = false)
    (hNB : jsTrim s.inputValue ≠ "") :
    ∃ req, (handleSendStart s n1).2 = some req ∧
      req.base64Data = dataUrlBase64 s.currentImage ∧
      req.mimeType = dataUrlMime s.currentImage ∧
      req.prompt = jsTrim s.inputValue ∧
      req.modifiers = [] ∧
      (handleSendFinish (handleSendStart s n1).1 req (some b)
          n2).currentImage = "data:image/png;base64," ++ b ∧
      ∃ mm,
        (handleSendFinish (handleSendStart s n1).1 req (some b)
            n2).messages = (handleSendStart s n1).1.messages ++ [mm] ∧
        mm.role = .model ∧
        mm.imageUrl = some ("data:image/png;base64," ++ b) ∧
        mm.executedPrompt = some (mkFullPrompt (jsTrim s.inputValue) []) := by
  refine ⟨{ base64Data := dataUrlBase64 s.currentImage,
            mimeType := dataUrlMime s.currentImage,
            prompt := jsTrim s.inputValue, modifiers := [] },
          ?_, rfl, rfl, rfl, rfl, ?_, ?_⟩
  · simp [handleSendStart, hIdle, hNB]
  · simp [handleSendFinish, editImageWithGemini]
  · refine ⟨{ id := natToString (n2 + 1), role := .model, text := none,
              imageUrl := some ("data:image/png;base64," ++ b),
              executedPrompt := some (mkFullPrompt (jsTrim s.inputValue) []),
              timestamp := n2 }, ?_, rfl, rfl, rfl⟩
    simp [handleSendFinish, editImageWithGemini, mkFullPrompt]

/-- C3 witness: the success theorem at a concrete idle state. -/
theorem edit_success_transition_witness :
    ∃ req, (handleSendStart sampleEditorState 10).2 = some req ∧
      req.base64Data = dataUrlBase64 sampleEditorState.currentImage ∧
      req.mimeType = dataUrlMime sampleEditorState.currentImage ∧
      req.prompt = jsTrim sampleEditorState.inputValue ∧
      req.modifiers = [] ∧
      (handleSendFinish (handleSendStart sampleEditorState 10).1 req
          (some "RkZG") 11).currentImage =
        "data:image/png;base64," ++ "RkZG" ∧
      ∃ mm,
        (handleSendFinish (handleSendStart sampleEditorState 10).1 req
            (some "RkZG") 11).messages =
          (handleSendStart sampleEditorState 10).1.messages ++ [mm] ∧
        mm.role = .model ∧
        mm.imageUrl = some ("data:image/png;base64," ++ "RkZG") ∧
        mm.executedPrompt =
          some (mkFullPrompt (jsTrim sampleEditorState.inputValue) []) :=
  edit_success_transition sampleEditorState 10 11 "RkZG" rfl (by decide)

/-- C4: when the `editImageWithGemini` call of an accepted submission
fails, the session appends a model message carrying the fixed failure
notice and no image, leaves `currentImage` unchanged, clears the
outstanding flag (returning to idle, with no failure propagated — the
finishing step is total), and a subsequent non-blank submit is accepted
again. -/
theorem edit_failure_recovery (s : EditorState) (n1 n2 n3 : Nat) (v : String)
    (hIdle : s.isProcessing = false)
    (hNB : jsTrim s.inputValue ≠ "")
    (hv : jsTrim v ≠ "") :
    ∀ req, (handleSendStart s n1).2 = some req →
      (handleSendFinish (handleSendStart s n1).1 req none
          n2).currentImage = s.currentImage ∧
      (∃ mm,
        (handleSendFinish (handleSendStart s n1).1 req none n2).messages =
          (handleSendStart s n1).1.messages ++ [mm] ∧
        mm.role = .model ∧
        mm.text = some "Sorry, I couldn't generate that edit. Please try again." ∧
        mm.imageUrl = none) ∧
      (handleSendFinish (handleSendStart s n1).1 req none
          n2).isProcessing = false ∧
      ((handleSendStart
          { handleSendFinish (handleSendStart s n1).1 req none n2 with
            inputValue := v } n3).2).isSome = true := by
  intro req _
  refine ⟨?_,
    ⟨{ id := natToString (n2 + 1), role := .model,
       text := some "Sorry, I couldn't generate that edit. Please try again.",
       imageUrl := none, executedPrompt := none, timestamp := n2 },
     by simp [handleSendFinish, editImageWithGemini], rfl, rfl, rfl⟩,
    ?_, ?_⟩
  · simp [handleSendFinish, editImageWithGemini, handleSendStart, hIdle,
      hNB]
  · simp [handleSendFinish, editImageWithGemini]
  · simp [handleSendStart, handleSendFinish, editImageWithGemini, hv]

/-- C4 witness: the recovery theorem at a concrete idle state — after a
failed edit the active image is unchanged. -/
theorem edit_failure_recovery_witness :
    (handleSendFinish (handleSendStart sampleEditorState 10).1
        { base64Data := dataUrlBase64 sampleEditorState.currentImage,
          mimeType := dataUrlMime sampleEditorState.currentImage,
          prompt := jsTrim sampleEditorState.inputValue,
          modifiers := [] } none 11).currentImage =
      sampleEditorState.currentImage :=
  (edit_failure_recovery sampleEditorState 10 11 12 "Make it blue" rfl
      (by decide) (by decide) _ (by decide)).1

/-- C6: over a history of N artifacts of which exactly one has an image
handle the decoder cannot decode, the bundle holds N log files and exactly
N-1 image files; the bad item's image is skipped while its log and all
other items are kept.  `zipFolderEntries` is a total function, so no
exception escapes the bundle-building call (the decode failure is only
logged to the console, which the embedding does not model). -/
theorem bundle_fault_isolation (fmtTime : Nat → String)
    (decode : String → Option String) (items : List GeneratedItem)
    (hOne :
      (items.filter fun it => (decode it.imageUrl).isNone).length = 1) :
    countLogs (zipFolderEntries fmtTime decode items) = items.length ∧
    countImages (zipFolderEntries fmtTime decode items) =
      items.length - 1 := by
  refine ⟨countLogs_zipFolderEntries fmtTime decode items, ?_⟩
  rw [countImages_zipFolderEntries]
  have hsplit :=
    List.length_eq_length_filter_add (l := items)
      (fun it => (decode it.imageUrl).isSome)
  have hneg :
      (items.filter fun it => !(decode it.imageUrl).isSome) =
        items.filter fun it => (decode it.imageUrl).isNone := by
    apply List.filter_congr
    intro it _
    cases decode it.imageUrl <;> rfl
  rw [hneg] at hsplit
  omega

/-- C6 witness: three concrete artifacts, the middle handle corrupt —
three log files, two image files. -/
theorem bundle_fault_isolation_witness :
    countLogs
        (zipFolderEntries (fun _ => "1/1/2024") sampleDecode
          sampleBundleItems) = sampleBundleItems.length ∧
    countImages
        (zipFolderEntries (fun _ => "1/1/2024") sampleDecode
          sampleBundleItems) = sampleBundleItems.length - 1 :=
  bundle_fault_isolation (fun _ => "1/1/2024") sampleDecode
    sampleBundleItems (by decide)

/-- C8: a successful render preserves the session invariant that history
ids are the decimal renderings of their timestamps and that timestamps
strictly decrease front-to-back (most recent first, i.e. ids are
monotonically creation-ordered); provided the clock has strictly advanced
past every existing entry (`Date.now()` between two completed renders),
the resulting ids are pairwise distinct. -/
theorem artifact_ids_unique_ordered (s : AppState) (url : String)
    (b : String) (t : Option String) (now : Nat)
    (hImg : s.imageUrl = some url)
    (hValid : ¬(s.userIdea = "" ∧ s.selectedModifiers = []))
    (hChain :
      s.generatedHistory.Chain' fun x y => y.timestamp < x.timestamp)
    (hIds : ∀ it ∈ s.generatedHistory, it.id = natToString it.timestamp)
    (hNow : ∀ it ∈ s.generatedHistory, it.timestamp < now) :
    ((handleGenerateClick s (some b) (some t) now).generatedHistory.Chain'
      fun x y => y.timestamp < x.timestamp) ∧
    (∀ it ∈ (handleGenerateClick s (some b) (some t) now).generatedHistory,
      it.id = natToString it.timestamp) ∧
    ((handleGenerateClick s (some b) (some t)
        now).generatedHistory.Pairwise fun x y => x.id ≠ y.id) := by
  have hhist :
      (handleGenerateClick s (some b) (some t) now).generatedHistory =
        renderNewItem s
          { imageUrl := "data:image/png;base64," ++ b,
            executedPrompt := mkFullPrompt s.userIdea s.selectedModifiers }
          t now :: s.generatedHistory := by
    simp [handleGenerateClick, hImg, hValid, editImageWithGemini]
  rw [hhist]
  have hPairTs : s.generatedHistory.Pairwise fun x y =>
      y.timestamp < x.timestamp := by
    haveI : IsTrans GeneratedItem (fun x y => y.timestamp < x.timestamp) :=
      ⟨fun _ _ _ h1 h2 => lt_trans h2 h1⟩
    exact List.chain'_iff_pairwise.mp hChain
  refine ⟨?_, ?_, ?_⟩
  · rw [List.chain'_cons']
    refine ⟨?_, hChain⟩
    intro y hy
    exact hNow y (List.mem_of_mem_head? hy)
  · intro it hit
    rcases List.mem_cons.mp hit with h | h
    · rw [h]; rfl
    · exact hIds it h
  · rw [List.pairwise_cons]
    constructor
    · intro y hy hcontra
      have hyid : y.id = natToString y.timestamp := hIds y hy
      have : natToString now = natToString y.timestamp := by
        rw [← hyid]; exact hcontra
      have : now = y.timestamp := natToString_inj this
      exact absurd (hNow y hy) (by omega)
    · refine hPairTs.imp_of_mem ?_
      intro x y hx hy hlt hcontra
      have : natToString x.timestamp = natToString y.timestamp := by
        rw [← hIds x hx, ← hIds y hy]; exact hcontra
      have := natToString_inj this
      omega

/-- C8 witness: the invariant-preservation theorem at a concrete state
whose history already holds two time-based ids (timestamps 3 and 1),
rendering at clock value 9 — all three ids are pairwise distinct. -/
theorem artifact_ids_unique_ordered_witness :
    (handleGenerateClick sampleAppStateWithHistory (some "QkJC")
        (some (some "Night Bloom"))
        9).generatedHistory.Pairwise (fun x y => x.id ≠ y.id) :=
  (artifact_ids_unique_ordered sampleAppStateWithHistory
      "data:image/png;base64,QUJD" "QkJC" (some "Night Bloom") 9 rfl
      (by decide)
      (by
        simp [sampleAppStateWithHistory, sampleAppState,
          List.chain'_cons])
      (by
        intro it hit
        simp [sampleAppStateWithHistory, sampleAppState] at hit
        rcases hit with h | h <;> subst h <;> rfl)
      (by
        intro it hit
        simp [sampleAppStateWithHistory, sampleAppState] at hit
        rcases hit with h | h <;> subst h <;> decide)).2.2

end AIrtScanner
